import Mathlib

/-!
Verification development for the AgentNet annotator core_v2 components:
the event bus (events.py), the action model and factory (actions/action.py),
and the recording session state machine (recording/session.py).

Python conventions are embedded explicitly:
* Python dicts become insertion-ordered association lists (`Dict`), with
  `dictInsert` modelling `d[k] = v` (update in place, else append) and
  `dictMerge` modelling the unpacking merge of two dicts (later wins).
* Python floats (timestamps) become rationals; `pyInt` models `int(q)`
  (truncation toward zero).
* `l[-limit:]` slicing becomes `pySliceFrom l (-limit)`.
* Fallible code returns `Except`; `time.time()` becomes an explicit `now`
  argument threaded to each construction site.
-/

namespace AgentNet

/-- Python dict with string keys, as an insertion-ordered association list. -/
abbrev Dict := List (String × String)

/-- Python assignment `d[k] = v`: replace the value at the first occurrence of
the key, keeping its position, otherwise append the pair at the end. -/
def dictInsert (d : Dict) (k v : String) : Dict :=
  match d with
  | [] => [(k, v)]
  | (k2, v2) :: rest =>
      if k2 = k then (k2, v) :: rest else (k2, v2) :: dictInsert rest k v

/-- Python dict read `d.get(k)` / `d[k]`: the value at the unique occurrence
of the key (the first, if the list was built with duplicates). -/
def dictGet (d : Dict) (k : String) : Option String :=
  match d with
  | [] => none
  | (k2, v) :: rest => if k2 = k then some v else dictGet rest k

/-- Python double-unpacking merge of two dicts: entries of the first are
inserted into a fresh dict, then entries of the second, so later entries win
on key collision. -/
def dictMerge (m1 m2 : Dict) : Dict :=
  (m1 ++ m2).foldl (fun d kv => dictInsert d kv.1 kv.2) []

/-- Python `a or b` on optional dict values: `None` and the empty dict are
falsy, so the right operand is returned unless the left is a nonempty dict. -/
def pyOrDict (a b : Option Dict) : Option Dict :=
  match a with
  | some d => if d.isEmpty then b else some d
  | none => b

/-- Python `int(q)` on a float: truncation toward zero. -/
def pyInt (q : ℚ) : Int :=
  if 0 ≤ q then q.floor else q.ceil

/-- Python slice `l[idx:]` for a possibly negative index. -/
def pySliceFrom {α : Type} (l : List α) (idx : Int) : List α :=
  if idx < 0 then l.drop ((l.length + idx).toNat) else l.drop idx.toNat

/-! ## events.py -/

/-- Types of events in the system (events.py, `EventType`). -/
inductive EventType
  | RECORDING_STARTED
  | RECORDING_STOPPED
  | RECORDING_PAUSED
  | RECORDING_RESUMED
  | MOUSE_MOVED
  | MOUSE_CLICKED
  | KEY_PRESSED
  | SCROLL_EVENT
  | WINDOW_CHANGED
  | APP_SWITCHED
  | SCREEN_CHANGED
  | EVENT_PROCESSED
  | BATCH_COMPLETED
  | ERROR_OCCURRED
  | FILE_CREATED
  | FILE_SAVED
  | FILE_DELETED
  | A11Y_TREE_UPDATED
  | ELEMENT_FOCUSED
deriving DecidableEq

/-- The Python enum member name of an event type. -/
def EventType.name : EventType → String
  | .RECORDING_STARTED => "RECORDING_STARTED"
  | .RECORDING_STOPPED => "RECORDING_STOPPED"
  | .RECORDING_PAUSED => "RECORDING_PAUSED"
  | .RECORDING_RESUMED => "RECORDING_RESUMED"
  | .MOUSE_MOVED => "MOUSE_MOVED"
  | .MOUSE_CLICKED => "MOUSE_CLICKED"
  | .KEY_PRESSED => "KEY_PRESSED"
  | .SCROLL_EVENT => "SCROLL_EVENT"
  | .WINDOW_CHANGED => "WINDOW_CHANGED"
  | .APP_SWITCHED => "APP_SWITCHED"
  | .SCREEN_CHANGED => "SCREEN_CHANGED"
  | .EVENT_PROCESSED => "EVENT_PROCESSED"
  | .BATCH_COMPLETED => "BATCH_COMPLETED"
  | .ERROR_OCCURRED => "ERROR_OCCURRED"
  | .FILE_CREATED => "FILE_CREATED"
  | .FILE_SAVED => "FILE_SAVED"
  | .FILE_DELETED => "FILE_DELETED"
  | .A11Y_TREE_UPDATED => "A11Y_TREE_UPDATED"
  | .ELEMENT_FOCUSED => "ELEMENT_FOCUSED"

/-- Base event class (events.py, `Event`); the payload map is kept opaque as a
string-valued dict. -/
structure Event where
  event_type : EventType
  timestamp : ℚ
  source : String
  data : Dict
  event_id : Option String := none
deriving DecidableEq

/-- Dataclass post-init hook: derive an id from the type name and the current
wall-clock microsecond when no id was supplied. -/
def Event.post_init (e : Event) (now : ℚ) : Event :=
  match e.event_id with
  | none =>
      { e with event_id := some (e.event_type.name ++ "_" ++ toString (pyInt (now * 1000000))) }
  | some _ => e

/-- A bus subscriber: an identity (Python object identity) together with its
`can_handle` predicate.  `handle_event` is modelled as effect-free; a publish
reports the list of handlers it invoked. -/
structure EventHandler where
  hid : Nat
  canHandle : EventType → Bool

/-- Central event bus state (events.py, `EventBus.__init__`).  The per-type
handler registry is a `defaultdict(list)`: an insertion-ordered map whose keys
are exactly the types `subscribe` has been called with. -/
structure EventBus where
  handlers : List (EventType × List EventHandler)
  global_handlers : List EventHandler
  event_history : List Event

/-- A freshly constructed bus. -/
def EventBus.empty : EventBus := ⟨[], [], []⟩

/-- History capacity (`self._max_history = 1000`). -/
def maxHistory : Nat := 1000

/-- Append a handler to the list stored at a key of the registry, creating the
key if absent (the `defaultdict` behaviour of `self._handlers[t].append(h)`). -/
def registryAppend (r : List (EventType × List EventHandler)) (t : EventType)
    (h : EventHandler) : List (EventType × List EventHandler) :=
  match r with
  | [] => [(t, [h])]
  | (t2, l) :: rest =>
      if t2 = t then (t2, l ++ [h]) :: rest else (t2, l) :: registryAppend rest t h

/-- Overwrite the list stored at a key known to be present. -/
def registrySet (r : List (EventType × List EventHandler)) (t : EventType)
    (l : List EventHandler) : List (EventType × List EventHandler) :=
  match r with
  | [] => []
  | (t2, l2) :: rest =>
      if t2 = t then (t2, l) :: rest else (t2, l2) :: registrySet rest t l

/-- Look up the list stored at a key (`self._handlers.get(t, [])` does not
create an entry, unlike indexing). -/
def registryGet (r : List (EventType × List EventHandler)) (t : EventType) :
    Option (List EventHandler) :=
  match r with
  | [] => none
  | (t2, l) :: rest => if t2 = t then some l else registryGet rest t

/-- `subscribe(event_type, handler)`. -/
def EventBus.subscribe (bus : EventBus) (t : EventType) (h : EventHandler) : EventBus :=
  { bus with handlers := registryAppend bus.handlers t h }

/-- `subscribe_global(handler)`. -/
def EventBus.subscribe_global (bus : EventBus) (h : EventHandler) : EventBus :=
  { bus with global_handlers := bus.global_handlers ++ [h] }

/-- History update inside `publish`: append, then pop the front entry when the
length exceeds the capacity. -/
def pushHistory (h : List Event) (e : Event) : List Event :=
  if (h ++ [e]).length > maxHistory then (h ++ [e]).tail else h ++ [e]

/-- `publish(event)` (events.py lines 135-168).  Faithful to the source,
including the aliasing of the local variable with the stored registry list:
`handlers = self._handlers.get(event.event_type, [])` returns the stored list
object whenever the key is present, so the following
`handlers.extend(self._global_handlers)` mutates the registry in that case.
Returns the updated bus and the handlers invoked, in invocation order (those
of the combined list whose `can_handle` accepts the type). -/
def EventBus.publish (bus : EventBus) (e : Event) : EventBus × List EventHandler :=
  let hist := pushHistory bus.event_history e
  match registryGet bus.handlers e.event_type with
  | none =>
      let combined := bus.global_handlers
      ({ bus with event_history := hist },
        combined.filter (fun h => h.canHandle e.event_type))
  | some l =>
      let combined := l ++ bus.global_handlers
      ({ bus with
          event_history := hist
          handlers := registrySet bus.handlers e.event_type combined },
        combined.filter (fun h => h.canHandle e.event_type))

/-- `get_event_history(event_type=None, limit=100)`: slice the last `limit`
entries first, then filter by type when one is given. -/
def EventBus.get_event_history (bus : EventBus) (event_type : Option EventType)
    (limit : Int) : List Event :=
  match event_type with
  | some t => (pySliceFrom bus.event_history (-limit)).filter (fun e => e.event_type = t)
  | none => pySliceFrom bus.event_history (-limit)

/-- `clear_history()`. -/
def EventBus.clear_history (bus : EventBus) : EventBus :=
  { bus with event_history := [] }

/-- The bus operations exercised by the claims. -/
inductive BusOp
  | publish (e : Event)
  | clear
  | subscribe (t : EventType) (h : EventHandler)
  | subscribeGlobal (h : EventHandler)

/-- Apply one bus operation. -/
def applyBusOp (bus : EventBus) : BusOp → EventBus
  | .publish e => (bus.publish e).1
  | .clear => bus.clear_history
  | .subscribe t h => bus.subscribe t h
  | .subscribeGlobal h => bus.subscribe_global h

/-- Run a sequence of bus operations from a fresh bus. -/
def runBusOps (ops : List BusOp) : EventBus :=
  ops.foldl applyBusOp EventBus.empty

/-! ## actions/action.py -/

/-- Types of user actions (action.py, `ActionType`). -/
inductive ActionType
  | MOVE
  | CLICK
  | TYPE
  | PRESS
  | SCROLL
  | DRAG
  | WAIT
  | SCREENSHOT
deriving DecidableEq

/-- The Python enum member name of an action type. -/
def ActionType.name : ActionType → String
  | .MOVE => "MOVE"
  | .CLICK => "CLICK"
  | .TYPE => "TYPE"
  | .PRESS => "PRESS"
  | .SCROLL => "SCROLL"
  | .DRAG => "DRAG"
  | .WAIT => "WAIT"
  | .SCREENSHOT => "SCREENSHOT"

/-- Enum lookup `ActionType[name]`; `none` models the `KeyError`. -/
def ActionType.fromName (s : String) : Option ActionType :=
  if s == "MOVE" then some .MOVE
  else if s == "CLICK" then some .CLICK
  else if s == "TYPE" then some .TYPE
  else if s == "PRESS" then some .PRESS
  else if s == "SCROLL" then some .SCROLL
  else if s == "DRAG" then some .DRAG
  else if s == "WAIT" then some .WAIT
  else if s == "SCREENSHOT" then some .SCREENSHOT
  else none

/-- The `scroll_info` dict: the two keys that the code reads, each possibly
absent (`.get` with default 0). -/
structure ScrollInfo where
  dx : Option Int := none
  dy : Option Int := none
deriving DecidableEq

/-- Data container for action information (action.py, `ActionData`). -/
structure ActionData where
  action_type : ActionType
  timestamp : ℚ
  element_info : Option Dict := none
  coordinates : Option (Int × Int) := none
  text : Option String := none
  key_info : Option Dict := none
  scroll_info : Option ScrollInfo := none
  metadata : Dict := []
deriving DecidableEq

/-- A constructed action: its data plus the id derived in `Action.__init__`. -/
structure Action where
  data : ActionData
  action_id : String
deriving DecidableEq

/-- `Action.__init__`: the id is the kind name joined with the wall-clock
microsecond at construction time (`int(time.time() * 1000000)`), which is
passed in as `now`. -/
def mkAction (d : ActionData) (now : ℚ) : Action :=
  ⟨d, d.action_type.name ++ "_" ++ toString (pyInt (now * 1000000))⟩

/-- Dictionary representation of an action (the fixed key set written by
`ActionData.to_dict` and `Action.to_dict`, read by `create_from_dict`).
`none` in a field stands for the key being absent from the dict, except for
the payload fields where the source always writes the key and `none` is the
Python `None` value; `create_from_dict` reads those fields with `.get`, which
does not distinguish the two. -/
structure ActionDict where
  action_type : Option String := none
  timestamp : Option ℚ := none
  element_info : Option Dict := none
  coordinates : Option (Int × Int) := none
  text : Option String := none
  key_info : Option Dict := none
  scroll_info : Option ScrollInfo := none
  metadata : Option Dict := none
  action_id : Option String := none
  class_name : Option String := none
deriving DecidableEq

/-- `ActionData.to_dict`. -/
def ActionData.to_dict (d : ActionData) : ActionDict :=
  { action_type := some d.action_type.name
    timestamp := some d.timestamp
    element_info := d.element_info
    coordinates := d.coordinates
    text := d.text
    key_info := d.key_info
    scroll_info := d.scroll_info
    metadata := some d.metadata }

/-- The `__class__.__name__` written by `Action.to_dict`. -/
def ActionType.className : ActionType → String
  | .MOVE => "MoveAction"
  | .CLICK => "ClickAction"
  | .TYPE => "TypeAction"
  | .SCROLL => "ScrollAction"
  | .PRESS => "PressAction"
  | .DRAG => "DragAction"
  | .WAIT => "WaitAction"
  | .SCREENSHOT => "ScreenshotAction"

/-- `Action.to_dict`: the data dict plus the action id and class name. -/
def Action.to_dict (a : Action) : ActionDict :=
  { a.data.to_dict with
      action_id := some a.action_id
      class_name := some a.data.action_type.className }

/-- `TypeAction.can_merge_with`: the argument must be a `TypeAction`
(its data kind is TYPE) and the timestamps must be within one second. -/
def TypeAction.can_merge_with (self other : Action) : Bool :=
  other.data.action_type = ActionType.TYPE &&
    |self.data.timestamp - other.data.timestamp| < 1

/-- `TypeAction.merge_with`: concatenate text chronologically; the branch is
chosen by the strict comparison `other.timestamp > self.timestamp`, so equal
timestamps fall into the second branch.  Python `(text or "")` maps `None`
and `""` both to `""`; `(e1 or e2)` on element infos takes the second when the
first is `None` or an empty dict. -/
def TypeAction.merge_with (self other : Action) (now : ℚ) : Except String Action :=
  if ¬ TypeAction.can_merge_with self other then .error "Cannot merge these actions"
  else if other.data.timestamp > self.data.timestamp then
    .ok (mkAction
      { action_type := ActionType.TYPE
        timestamp := other.data.timestamp
        text := some ((self.data.text.getD "") ++ (other.data.text.getD ""))
        element_info := pyOrDict other.data.element_info self.data.element_info
        metadata := dictMerge self.data.metadata other.data.metadata } now)
  else
    .ok (mkAction
      { action_type := ActionType.TYPE
        timestamp := self.data.timestamp
        text := some ((other.data.text.getD "") ++ (self.data.text.getD ""))
        element_info := pyOrDict self.data.element_info other.data.element_info
        metadata := dictMerge other.data.metadata self.data.metadata } now)

/-- `ScrollAction.can_merge_with`: the argument must be a `ScrollAction`, the
time difference must not exceed half a second (the source rejects only
`time_diff > 0.5`), and when both sides carry coordinates the euclidean
distance must be below 50 pixels; with integer coordinates the float test
`((x2-x1)**2 + (y2-y1)**2) ** 0.5 < 50` is equivalent to comparing the exact
squared distance with 2500. -/
def ScrollAction.can_merge_with (self other : Action) : Bool :=
  if other.data.action_type ≠ ActionType.SCROLL then false
  else if |self.data.timestamp - other.data.timestamp| > 0.5 then false
  else
    match self.data.coordinates, other.data.coordinates with
    | some p, some q => (q.1 - p.1) ^ 2 + (q.2 - p.2) ^ 2 < 2500
    | _, _ => true

/-- `ScrollAction.merge_with`: accumulate the deltas (missing `scroll_info`
counts as zero, as do missing `dx`/`dy` keys) and take the timestamp and
coordinates of the strictly later action, the receiver's on a tie. -/
def ScrollAction.merge_with (self other : Action) (now : ℚ) : Except String Action :=
  if ¬ ScrollAction.can_merge_with self other then .error "Cannot merge these actions"
  else
    let my := self.data.scroll_info.getD ⟨some 0, some 0⟩
    let os := other.data.scroll_info.getD ⟨some 0, some 0⟩
    let ns : ScrollInfo := ⟨some (my.dx.getD 0 + os.dx.getD 0), some (my.dy.getD 0 + os.dy.getD 0)⟩
    let later := other.data.timestamp > self.data.timestamp
    .ok (mkAction
      { action_type := ActionType.SCROLL
        timestamp := if later then other.data.timestamp else self.data.timestamp
        coordinates := if later then other.data.coordinates else self.data.coordinates
        scroll_info := some ns
        element_info := pyOrDict other.data.element_info self.data.element_info
        metadata := dictMerge self.data.metadata other.data.metadata } now)

/-- Errors raised by the factory (`ValueError`s in the source, told apart by
their message). -/
inductive FactoryError
  | missingActionType
  | invalidActionType (nm : String)
  | unknownActionType (t : ActionType)
deriving DecidableEq

/-- The kinds with a constructor in `ActionFactory._action_classes`. -/
def ActionFactory.registered : ActionType → Bool
  | .MOVE => true
  | .CLICK => true
  | .TYPE => true
  | .SCROLL => true
  | _ => false

/-- `ActionFactory.create_action`: look the kind up in the registry and
construct through the registered class (whose own kind check necessarily
passes), or raise the unknown-action-type error. -/
def ActionFactory.create_action (d : ActionData) (now : ℚ) : Except FactoryError Action :=
  if ActionFactory.registered d.action_type then .ok (mkAction d now)
  else .error (.unknownActionType d.action_type)

/-- `ActionFactory.create_from_dict`: `if not action_type_name` rejects both a
missing key and an empty name; `ActionType[name]` may raise `KeyError`; the
`coordinates` entry passes through `tuple(...)` only when truthy, which for a
pair is always; `timestamp` defaults to the current time and `metadata` to an
empty dict when the key is absent. -/
def ActionFactory.create_from_dict (dict : ActionDict) (now : ℚ) : Except FactoryError Action :=
  match dict.action_type with
  | none => .error .missingActionType
  | some nm =>
      if nm == "" then .error .missingActionType
      else
        match ActionType.fromName nm with
        | none => .error (.invalidActionType nm)
        | some t =>
            ActionFactory.create_action
              { action_type := t
                timestamp := dict.timestamp.getD now
                element_info := dict.element_info
                coordinates :=
                  match dict.coordinates with
                  | some c => some c
                  | none => none
                text := dict.text
                key_info := dict.key_info
                scroll_info := dict.scroll_info
                metadata := dict.metadata.getD [] } now

/-! ## recording/session.py -/

/-- Recording session states (session.py, `SessionState`). -/
inductive SessionState
  | IDLE
  | PREPARING
  | RECORDING
  | PAUSED
  | STOPPING
  | STOPPED
  | ERROR
deriving DecidableEq

/-- Metadata for a recording session (session.py, `SessionMetadata`). -/
structure SessionMetadata where
  session_id : String
  start_time : Option ℚ := none
  end_time : Option ℚ := none
  task_name : Option String := none
  task_description : Option String := none
  user_id : Option String := none
  screen_resolution : Option (Int × Int) := none
  platform : Option String := none
  version : String := "2.0"
  tags : List String := []
  custom_data : Dict := []
deriving DecidableEq

/-- A recording session (session.py, `RecordingSession`).  Observers are not
modelled: `_notify_state_change` calls them under a blanket exception guard
and they cannot alter the fields below. -/
structure RecordingSession where
  session_id : String
  recording_path : String
  state : SessionState := .IDLE
  metadata : SessionMetadata
  state_history : List (SessionState × ℚ) := []
  event_count : Nat := 0
  natural_scrolling : Bool := true
  generate_window_a11y : Bool := false
  generate_element_a11y : Bool := true
deriving DecidableEq

/-- `set_state`: record the new state and its wall-clock time in the history,
stamping `start_time` on entering RECORDING from anything but PAUSED and
`end_time` on first entering STOPPED. -/
def RecordingSession.set_state (s : RecordingSession) (new : SessionState)
    (now : ℚ) : RecordingSession :=
  let md := s.metadata
  let md2 :=
    if new = SessionState.RECORDING ∧ s.state ≠ SessionState.PAUSED then
      { md with start_time := some now }
    else if new = SessionState.STOPPED ∧ md.end_time = none then
      { md with end_time := some now }
    else md
  { s with
      state := new
      state_history := s.state_history ++ [(new, now)]
      metadata := md2 }

/-- `can_transition_to`: the transition table. -/
def RecordingSession.can_transition_to (s : RecordingSession)
    (new : SessionState) : Bool :=
  match s.state with
  | .IDLE => new = SessionState.PREPARING
  | .PREPARING => new = SessionState.RECORDING || new = SessionState.ERROR
  | .RECORDING => new = SessionState.PAUSED || new = SessionState.STOPPING
  | .PAUSED => new = SessionState.RECORDING || new = SessionState.STOPPING
  | .STOPPING => new = SessionState.STOPPED || new = SessionState.ERROR
  | .STOPPED => new = SessionState.IDLE
  | .ERROR => new = SessionState.IDLE || new = SessionState.STOPPED

/-- `prepare`: guarded by the transition table; the external work (directory
creation, platform name and screen size) either succeeds, stamping the
platform metadata before entering PREPARING, or raises, which the source
catches and converts into the ERROR state.  The external outcome is the
`plat` argument. -/
def RecordingSession.prepare (s : RecordingSession) (now : ℚ)
    (plat : Option (String × (Int × Int))) : Bool × RecordingSession :=
  if ¬ s.can_transition_to SessionState.PREPARING then (false, s)
  else
    match plat with
    | some pr =>
        let s2 := { s with metadata :=
          { s.metadata with platform := some pr.1, screen_resolution := some pr.2 } }
        (true, s2.set_state SessionState.PREPARING now)
    | none => (false, s.set_state SessionState.ERROR now)

/-- `start`. -/
def RecordingSession.start (s : RecordingSession) (now : ℚ) : Bool × RecordingSession :=
  if ¬ s.can_transition_to SessionState.RECORDING then (false, s)
  else (true, s.set_state SessionState.RECORDING now)

/-- `pause`. -/
def RecordingSession.pause (s : RecordingSession) (now : ℚ) : Bool × RecordingSession :=
  if ¬ s.can_transition_to SessionState.PAUSED then (false, s)
  else (true, s.set_state SessionState.PAUSED now)

/-- `resume`. -/
def RecordingSession.resume (s : RecordingSession) (now : ℚ) : Bool × RecordingSession :=
  if ¬ s.can_transition_to SessionState.RECORDING then (false, s)
  else (true, s.set_state SessionState.RECORDING now)

/-- `stop`. -/
def RecordingSession.stop (s : RecordingSession) (now : ℚ) : Bool × RecordingSession :=
  if ¬ s.can_transition_to SessionState.STOPPING then (false, s)
  else (true, s.set_state SessionState.STOPPING now)

/-- `complete`. -/
def RecordingSession.complete (s : RecordingSession) (now : ℚ) : Bool × RecordingSession :=
  if ¬ s.can_transition_to SessionState.STOPPED then (false, s)
  else (true, s.set_state SessionState.STOPPED now)

/-- `error(error_message)`: write the message into `custom_data` and enter the
ERROR state, with no transition-table check. -/
def RecordingSession.error (s : RecordingSession) (msg : String) (now : ℚ) :
    RecordingSession :=
  let s2 := { s with metadata :=
    { s.metadata with custom_data := dictInsert s.metadata.custom_data "error_message" msg } }
  s2.set_state SessionState.ERROR now

/-- `reset`: guarded by the table; on success the metadata is replaced with a
fresh instance and the history and counter cleared before entering IDLE. -/
def RecordingSession.reset (s : RecordingSession) (now : ℚ) : Bool × RecordingSession :=
  if ¬ s.can_transition_to SessionState.IDLE then (false, s)
  else
    let s2 := { s with
      metadata := ({ session_id := s.session_id } : SessionMetadata)
      state_history := ([] : List (SessionState × ℚ))
      event_count := 0 }
    (true, s2.set_state SessionState.IDLE now)

/-- The non-error transition calls of the session, with the state each one
requests from the table. -/
inductive SessionCall
  | prepare
  | start
  | pause
  | resume
  | stop
  | complete
  | reset
deriving DecidableEq

/-- The state a call asks `can_transition_to` about. -/
def SessionCall.target : SessionCall → SessionState
  | .prepare => .PREPARING
  | .start => .RECORDING
  | .pause => .PAUSED
  | .resume => .RECORDING
  | .stop => .STOPPING
  | .complete => .STOPPED
  | .reset => .IDLE

/-- Dispatch a transition call (the `plat` argument is consumed only by
`prepare`). -/
def SessionCall.run (c : SessionCall) (s : RecordingSession) (now : ℚ)
    (plat : Option (String × (Int × Int))) : Bool × RecordingSession :=
  match c with
  | .prepare => s.prepare now plat
  | .start => s.start now
  | .pause => s.pause now
  | .resume => s.resume now
  | .stop => s.stop now
  | .complete => s.complete now
  | .reset => s.reset now

/-! ## Concrete inputs used by counterexamples and witnesses -/

/-- A handler accepting every event type, with identity 1. -/
def hC1 : EventHandler := ⟨1, fun _ => true⟩

/-- A global handler accepting every event type, with identity 2. -/
def gC1 : EventHandler := ⟨2, fun _ => true⟩

/-- A mouse-move event. -/
def eC1 : Event := ⟨.MOUSE_MOVED, 0, "mouse", [], some "e"⟩

/-- A bus with `hC1` subscribed to MOUSE_MOVED and `gC1` subscribed globally. -/
def busC1 : EventBus := (EventBus.empty.subscribe .MOUSE_MOVED hC1).subscribe_global gC1

/-- A key-press event. -/
def eC2a : Event := ⟨.KEY_PRESSED, 0, "kbd", [], some "a"⟩

/-- A mouse-move event newer than `eC2a`. -/
def eC2b : Event := ⟨.MOUSE_MOVED, 1, "mouse", [], some "b"⟩

/-- A bus whose history holds a key press followed by a mouse move. -/
def busC2 : EventBus := ⟨[], [], [eC2a, eC2b]⟩

/-- Scroll action at time 0 without coordinates. -/
def aC3 : Action := mkAction { action_type := ActionType.SCROLL, timestamp := 0 } 0

/-- Scroll action exactly half a second after `aC3`. -/
def bC3 : Action := mkAction { action_type := ActionType.SCROLL, timestamp := 1 / 2 } 0

/-- The scroll action of the worked example in the spec:
deltas (1, 2) at time 0.1 and position (100, 100). -/
def aC3w : Action := mkAction
  { action_type := ActionType.SCROLL
    timestamp := 1 / 10
    coordinates := some (100, 100)
    scroll_info := some ⟨some 1, some 2⟩ } 0

/-- The second scroll action of the worked example:
deltas (3, -1) at time 0.3 and position (110, 105). -/
def bC3w : Action := mkAction
  { action_type := ActionType.SCROLL
    timestamp := 3 / 10
    coordinates := some (110, 105)
    scroll_info := some ⟨some 3, some (-1)⟩ } 0

/-- Type action with text "x" at time 0. -/
def aC4 : Action := mkAction { action_type := ActionType.TYPE, timestamp := 0, text := some "x" } 0

/-- Type action with text "y", also at time 0. -/
def bC4 : Action := mkAction { action_type := ActionType.TYPE, timestamp := 0, text := some "y" } 0

/-- Type action "Hello" at time 1 with a metadata entry for key "k". -/
def aC4w : Action := mkAction
  { action_type := ActionType.TYPE
    timestamp := 1
    text := some "Hello"
    metadata := [("k", "1")] } 0

/-- Type action " World" at time 1.5, element info present, colliding
metadata key "k". -/
def bC4w : Action := mkAction
  { action_type := ActionType.TYPE
    timestamp := 3 / 2
    text := some " World"
    element_info := some [("e", "v")]
    metadata := [("k", "2")] } 0

/-- A TYPE action payload with timestamp 1. -/
def dC5 : ActionData := { action_type := ActionType.TYPE, timestamp := 1 }

/-- A second TYPE payload, differing from `dC5` only in its timestamp. -/
def dC5b : ActionData := { action_type := ActionType.TYPE, timestamp := 2 }

/-- A TYPE payload with some optional fields populated. -/
def dC6 : ActionData :=
  { action_type := ActionType.TYPE
    timestamp := 1
    text := some "a"
    coordinates := some (3, 4)
    scroll_info := some ⟨some 5, none⟩
    metadata := [("m", "v")] }

/-- A PRESS payload. -/
def dC10 : ActionData := { action_type := ActionType.PRESS, timestamp := 0 }

/-- A serialized action whose kind name is PRESS. -/
def dictC10 : ActionDict := { action_type := some "PRESS" }

/-- A fresh session, in the IDLE state. -/
def sC8 : RecordingSession :=
  { session_id := "s", recording_path := "p", metadata := { session_id := "s" } }

end AgentNet

deriving instance DecidableEq for Except

namespace AgentNet

/-! ## Dictionary lemmas -/

theorem dictGet_dictInsert (d : Dict) (k0 v k : String) :
    dictGet (dictInsert d k0 v) k = if k = k0 then some v else dictGet d k := by
  induction d with
  | nil =>
      by_cases h : k = k0
      · simp [dictInsert, dictGet, h]
      · have h2 : ¬ k0 = k := fun hh => h hh.symm
        simp [dictInsert, dictGet, h, h2]
  | cons kv rest ih =>
      obtain ⟨k2, v2⟩ := kv
      by_cases h2 : k2 = k0 <;> by_cases h3 : k2 = k <;> by_cases h4 : k = k0 <;>
        simp_all [dictInsert, dictGet]

theorem dictGet_dictInsert_self (d : Dict) (k v : String) :
    dictGet (dictInsert d k v) k = some v := by
  simp [dictGet_dictInsert]

theorem dictGet_append (l1 l2 : Dict) (k : String) :
    dictGet (l1 ++ l2) k = (dictGet l1 k).orElse (fun _ => dictGet l2 k) := by
  induction l1 with
  | nil => simp [dictGet]
  | cons kv rest ih =>
      obtain ⟨k2, v2⟩ := kv
      by_cases h : k2 = k <;> simp [dictGet, h, ih]

theorem dictGet_foldIns (l : List (String × String)) (d : Dict) (k : String) :
    dictGet (l.foldl (fun d2 kv => dictInsert d2 kv.1 kv.2) d) k =
      (dictGet l.reverse k).orElse (fun _ => dictGet d k) := by
  induction l generalizing d with
  | nil => simp [dictGet]
  | cons kv rest ih =>
      obtain ⟨k2, v2⟩ := kv
      rw [List.foldl_cons, ih, List.reverse_cons, dictGet_append]
      cases hr : dictGet rest.reverse k with
      | some v3 => simp [Option.orElse]
      | none =>
          simp only [Option.orElse, dictGet_dictInsert, dictGet]
          by_cases h : k = k2
          · simp [h]
          · have h2 : ¬ k2 = k := fun hh => h hh.symm
            simp [h, h2]

theorem dictGet_reverse_of_nodup (l : Dict) (h : (l.map Prod.fst).Nodup) (k : String) :
    dictGet l.reverse k = dictGet l k := by
  induction l with
  | nil => rfl
  | cons kv rest ih =>
      obtain ⟨k2, v2⟩ := kv
      simp only [List.map_cons, List.nodup_cons] at h
      rw [List.reverse_cons, dictGet_append, ih h.2]
      by_cases h3 : k2 = k
      · subst h3
        have : dictGet rest k2 = none := by
          clear ih
          induction rest with
          | nil => rfl
          | cons kv2 rest2 ih2 =>
              obtain ⟨k4, v4⟩ := kv2
              simp only [List.map_cons, List.mem_cons, List.nodup_cons] at h
              have hne : k4 ≠ k2 := fun he => h.1 (Or.inl he.symm)
              simp only [dictGet, hne, if_neg]
              exact ih2 ⟨fun hm => h.1 (Or.inr hm), h.2.2⟩
        simp [this, dictGet, Option.orElse]
      · simp [dictGet, h3, Option.orElse]
        cases dictGet rest k <;> simp [Option.orElse]

theorem dictGet_dictMerge (m1 m2 : Dict) (k : String)
    (h1 : (m1.map Prod.fst).Nodup) (h2 : (m2.map Prod.fst).Nodup) :
    dictGet (dictMerge m1 m2) k =
      (dictGet m2 k).orElse (fun _ => dictGet m1 k) := by
  rw [dictMerge, dictGet_foldIns, List.reverse_append, dictGet_append,
    dictGet_reverse_of_nodup m1 h1, dictGet_reverse_of_nodup m2 h2]
  cases dictGet m2 k <;> cases dictGet m1 k <;> simp [dictGet, Option.orElse]

/-! ## Event-history lemmas -/

theorem pushHistory_length_le (h : List Event) (e : Event)
    (hl : h.length ≤ maxHistory) : (pushHistory h e).length ≤ maxHistory := by
  unfold pushHistory
  split
  · next hgt =>
      simp only [List.length_tail, List.length_append, List.length_cons,
        List.length_nil] at hgt ⊢
      omega
  · next hle =>
      simp only [not_lt, List.length_append, List.length_cons,
        List.length_nil] at hle ⊢
      omega

theorem publish_fst_history (bus : EventBus) (e : Event) :
    ((bus.publish e).1).event_history = pushHistory bus.event_history e := by
  unfold EventBus.publish
  cases registryGet bus.handlers e.event_type <;> rfl

theorem applyBusOp_history_le (bus : EventBus) (op : BusOp)
    (h : bus.event_history.length ≤ maxHistory) :
    (applyBusOp bus op).event_history.length ≤ maxHistory := by
  cases op with
  | publish e => rw [applyBusOp, publish_fst_history]; exact pushHistory_length_le _ _ h
  | clear => simp [applyBusOp, EventBus.clear_history]
  | subscribe t h2 => exact h
  | subscribeGlobal h2 => exact h

theorem foldl_applyBusOp_history_le (ops : List BusOp) (bus : EventBus)
    (h : bus.event_history.length ≤ maxHistory) :
    (ops.foldl applyBusOp bus).event_history.length ≤ maxHistory := by
  induction ops generalizing bus with
  | nil => exact h
  | cons op rest ih => exact ih _ (applyBusOp_history_le bus op h)

theorem foldl_pushHistory_suffix (es : List Event) (h : List Event)
    (hl : h.length ≤ maxHistory) :
    es.foldl pushHistory h = (h ++ es).drop (h.length + es.length - maxHistory) := by
  induction es generalizing h with
  | nil =>
      simp only [List.foldl_nil, List.length_nil, Nat.add_zero, List.append_nil]
      rw [Nat.sub_eq_zero_of_le hl, List.drop_zero]
  | cons e rest ih =>
      rw [List.foldl_cons, ih (pushHistory h e) (pushHistory_length_le h e hl)]
      by_cases hfull : h.length + 1 ≤ maxHistory
      · have hp : pushHistory h e = h ++ [e] := by
          unfold pushHistory
          rw [if_neg]
          simp only [not_lt, List.length_append, List.length_cons, List.length_nil]
          omega
        rw [hp]
        have hlen : (h ++ [e]).length = h.length + 1 := by simp
        have hidx : h.length + 1 + rest.length - maxHistory
            = h.length + (rest.length + 1) - maxHistory := by omega
        rw [hlen, hidx, List.append_assoc, List.singleton_append, List.length_cons]
      · have hfe : h.length = maxHistory := by omega
        have hp : pushHistory h e = (h ++ [e]).drop 1 := by
          unfold pushHistory
          rw [if_pos, List.drop_one]
          simp only [gt_iff_lt, List.length_append, List.length_cons, List.length_nil]
          omega
        rw [hp]
        have hidx1 : ((h ++ [e]).drop 1).length + rest.length - maxHistory
            = rest.length := by
          simp only [List.length_drop, List.length_append, List.length_cons,
            List.length_nil]
          omega
        rw [hidx1]
        have hone : (1 : ℕ) ≤ (h ++ [e]).length := by simp
        have hidx2 : h.length + (rest.length + 1) - maxHistory
            = 1 + rest.length := by omega
        rw [← List.drop_append_of_le_length hone, List.drop_drop,
          List.append_assoc, List.singleton_append, List.length_cons, hidx2]

theorem foldl_publish_history (es : List Event) (bus : EventBus) :
    ((es.map BusOp.publish).foldl applyBusOp bus).event_history =
      es.foldl pushHistory bus.event_history := by
  induction es generalizing bus with
  | nil => rfl
  | cons e rest ih =>
      rw [List.map_cons, List.foldl_cons, List.foldl_cons, ih, applyBusOp,
        publish_fst_history]

/-! ## Claim theorems -/

/-- C9: history of the event bus never exceeds 1000 entries under any
sequence of bus operations, and a stream of publishes leaves exactly the most
recent 1000 published events, in publish order (FIFO eviction of the
oldest). -/
theorem C9_bounded_fifo_history :
    (∀ ops : List BusOp, (runBusOps ops).event_history.length ≤ 1000) ∧
    (∀ es : List Event,
      (runBusOps (es.map BusOp.publish)).event_history =
        es.drop (es.length - 1000)) := by
  constructor
  · intro ops
    exact foldl_applyBusOp_history_le ops EventBus.empty (by simp [EventBus.empty])
  · intro es
    rw [runBusOps, foldl_publish_history]
    have h0 : (EventBus.empty.event_history).length ≤ maxHistory := by
      simp [EventBus.empty]
    rw [show EventBus.empty.event_history = [] from rfl,
      foldl_pushHistory_suffix es [] (by simp)]
    simp [maxHistory]

/-- C1 (code bug): on a bus with one handler subscribed to MOUSE_MOVED and
one global handler, the first publish of a MOUSE_MOVED event invokes the
handlers once each, as specified; but because the local variable in
`publish` aliases the stored per-type list, the global handler has been
appended to the MOUSE_MOVED registration, so the second publish of the same
type invokes the global handler twice. -/
theorem C1_second_publish_duplicates_globals :
    (busC1.publish eC1).2.map EventHandler.hid = [1, 2] ∧
    (((busC1.publish eC1).1).publish eC1).2.map EventHandler.hid = [1, 2, 2] ∧
    (registryGet ((busC1.publish eC1).1).handlers EventType.MOUSE_MOVED).map
      (fun l => l.map EventHandler.hid) = some [1, 2] := by
  refine ⟨rfl, rfl, rfl⟩

/-- C2 (counterexample): with a history holding a KEY_PRESSED event followed
by a MOUSE_MOVED event, asking for the 1 most recent KEY_PRESSED event
returns nothing, although the history contains one: the source slices the
last `limit` entries before filtering by type. -/
theorem C2_counterexample :
    busC2.get_event_history (some EventType.KEY_PRESSED) 1 = [] ∧
    List.filter (fun e => e.event_type = EventType.KEY_PRESSED)
      busC2.event_history = [eC2a] := by
  refine ⟨rfl, rfl⟩

/-- C2 (amended): `get_event_history(t, n)` for `n ≥ 1` returns, in history
order (most-recent-last), those events of type `t` that lie among the `n`
most recent entries of the history; events of type `t` older than that
window are omitted. -/
theorem C2_amended_filter_within_window (bus : EventBus) (t : EventType)
    (limit : Int) (h : 1 ≤ limit) :
    bus.get_event_history (some t) limit =
      (bus.event_history.drop (bus.event_history.length - limit.toNat)).filter
        (fun e => e.event_type = t) := by
  unfold EventBus.get_event_history pySliceFrom
  rw [if_pos (by omega)]
  have harg : ((bus.event_history.length : Int) + -limit).toNat
      = bus.event_history.length - limit.toNat := by omega
  rw [harg]

/-- Witness for C2: the amended statement evaluated on the two-event bus with
limit 1. -/
theorem C2_amended_witness :
    busC2.get_event_history (some EventType.KEY_PRESSED) 1 =
      (busC2.event_history.drop (busC2.event_history.length - Int.toNat 1)).filter
        (fun e => e.event_type = EventType.KEY_PRESSED) :=
  C2_amended_filter_within_window busC2 EventType.KEY_PRESSED 1 (by decide)

/-- C7: `error(message)` transitions the session to ERROR from every state,
with no transition-table check, and records the message in the metadata's
custom data under the error-message key. -/
theorem C7_error_unconditional (s : RecordingSession) (msg : String) (now : ℚ) :
    (s.error msg now).state = SessionState.ERROR ∧
    dictGet (s.error msg now).metadata.custom_data "error_message" = some msg := by
  unfold RecordingSession.error RecordingSession.set_state
  refine ⟨rfl, ?_⟩
  simp only []
  rw [if_neg (by simp), if_neg (by simp)]
  exact dictGet_dictInsert_self _ _ _

/-- C8: every non-error transition call whose target state is illegal from
the current state per the transition table returns failure and leaves the
session (state, metadata, history, event count, configuration) exactly
unchanged; in particular `start()` from IDLE returns failure with the state
still IDLE. -/
theorem C8_illegal_transition_rejected :
    (∀ (c : SessionCall) (s : RecordingSession) (now : ℚ)
        (plat : Option (String × (Int × Int))),
      s.can_transition_to c.target = false → c.run s now plat = (false, s)) ∧
    (∀ (s : RecordingSession) (now : ℚ) (plat : Option (String × (Int × Int))),
      s.state = SessionState.IDLE →
        SessionCall.run SessionCall.start s now plat = (false, s)) := by
  constructor
  · intro c s now plat h
    cases c <;>
      simp_all [SessionCall.run, SessionCall.target, RecordingSession.prepare,
        RecordingSession.start, RecordingSession.pause, RecordingSession.resume,
        RecordingSession.stop, RecordingSession.complete, RecordingSession.reset]
  · intro s now plat h
    simp [SessionCall.run, RecordingSession.start, RecordingSession.can_transition_to, h]

/-- Witness for C8: on a fresh IDLE session, `start()` fails and returns the
session unchanged. -/
theorem C8_witness : SessionCall.run SessionCall.start sC8 0 none = (false, sC8) :=
  C8_illegal_transition_rejected.2 sC8 0 none rfl

/-- C10: PRESS, DRAG, WAIT and SCREENSHOT are valid members of the action
kind enum, yet the factory registry has no constructor for them:
`create_action` on such data, and `create_from_dict` on a dict carrying such
a kind name, both fail with the unknown-action-type error (not the
invalid-name error). -/
theorem C10_unregistered_kinds (d : ActionData) (dict : ActionDict)
    (t : ActionType) (now : ℚ)
    (ht : t = ActionType.PRESS ∨ t = ActionType.DRAG ∨ t = ActionType.WAIT ∨
      t = ActionType.SCREENSHOT)
    (hd : d.action_type = t) (hdict : dict.action_type = some t.name) :
    ActionFactory.create_action d now = Except.error (FactoryError.unknownActionType t) ∧
    ActionFactory.create_from_dict dict now =
      Except.error (FactoryError.unknownActionType t) := by
  rcases ht with h | h | h | h <;> subst h <;>
    constructor <;>
      simp [ActionFactory.create_action, ActionFactory.create_from_dict,
        ActionFactory.registered, ActionType.fromName, ActionType.name, hd, hdict]

/-- Witness for C10: the factory rejects a PRESS payload and a serialized
PRESS dict with the unknown-action-type error. -/
theorem C10_witness :
    ActionFactory.create_action dC10 0 =
      Except.error (FactoryError.unknownActionType ActionType.PRESS) ∧
    ActionFactory.create_from_dict dictC10 0 =
      Except.error (FactoryError.unknownActionType ActionType.PRESS) :=
  C10_unregistered_kinds dC10 dictC10 ActionType.PRESS 0 (Or.inl rfl) rfl rfl

/-- C6: serializing any factory-constructible action with `to_dict` and
decoding with `create_from_dict` succeeds and reproduces the complete
payload (kind, timestamp, coordinates, text, key and element info, scroll
info, metadata); only the id is derived afresh from the decoding-time
clock. -/
theorem C6_roundtrip (d : ActionData) (n0 n1 : ℚ)
    (h : ActionFactory.registered d.action_type = true) :
    ActionFactory.create_from_dict (Action.to_dict (mkAction d n0)) n1 =
      Except.ok (mkAction d n1) := by
  obtain ⟨ty, ts, ei, co, tx, ki, si, md⟩ := d
  cases ty <;> simp_all [ActionFactory.registered] <;> cases co <;>
    simp [ActionFactory.create_from_dict, Action.to_dict, ActionData.to_dict,
      mkAction, ActionType.name, ActionType.fromName, ActionType.className,
      ActionFactory.create_action, ActionFactory.registered]

/-- Witness for C6: round trip of a TYPE action carrying text, coordinates,
scroll info, and metadata. -/
theorem C6_witness :
    ActionFactory.create_from_dict (Action.to_dict (mkAction dC6 1)) 2 =
      Except.ok (mkAction dC6 2) :=
  C6_roundtrip dC6 1 2 rfl

unseal Rat.add Rat.sub Rat.mul Rat.inv Rat.ofScientific in
/-- C5 (counterexample): two actions built from the same payload (same kind,
same timestamp field) at different wall-clock instants receive different
ids: the id depends on the construction-time clock, not on the action's
timestamp field. -/
theorem C5_counterexample :
    (mkAction dC5 1).data.action_type = (mkAction dC5 2).data.action_type ∧
    (mkAction dC5 1).data.timestamp = (mkAction dC5 2).data.timestamp ∧
    (mkAction dC5 1).action_id ≠ (mkAction dC5 2).action_id := by
  refine ⟨rfl, rfl, by decide⟩

/-- C5 (amended): the id of an action — and likewise of an event whose id
was not supplied — is a deterministic function of its kind and of the
wall-clock microsecond at construction time: constructions agreeing on both
yield the same id, whatever the timestamp fields are. -/
theorem C5_amended_id_from_kind_and_clock :
    (∀ (d1 d2 : ActionData) (n1 n2 : ℚ), d1.action_type = d2.action_type →
      pyInt (n1 * 1000000) = pyInt (n2 * 1000000) →
      (mkAction d1 n1).action_id = (mkAction d2 n2).action_id) ∧
    (∀ (e1 e2 : Event) (n1 n2 : ℚ), e1.event_type = e2.event_type →
      e1.event_id = none → e2.event_id = none →
      pyInt (n1 * 1000000) = pyInt (n2 * 1000000) →
      (e1.post_init n1).event_id = (e2.post_init n2).event_id) := by
  constructor
  · intro d1 d2 n1 n2 hk hc
    unfold mkAction
    rw [hk, hc]
  · intro e1 e2 n1 n2 hk h1 h2 hc
    unfold Event.post_init
    rw [h1, h2]
    simp only []
    rw [hk, hc]

/-- Witness for C5: two TYPE payloads with different timestamp fields,
constructed at the same clock instant, share an id. -/
theorem C5_witness : (mkAction dC5 3).action_id = (mkAction dC5b 3).action_id :=
  C5_amended_id_from_kind_and_clock.1 dC5 dC5b 3 3 rfl rfl

theorem mkAction_data (d : ActionData) (now : ℚ) : (mkAction d now).data = d := rfl

unseal Rat.add Rat.sub Rat.mul Rat.inv Rat.ofScientific in
/-- C3 (counterexample): two SCROLL actions exactly half a second apart (and
with no coordinates) are accepted by `can_merge_with` — the source rejects
only a time difference strictly greater than 0.5 — contradicting the
claimed strict bound `|Δt| < 0.5`. -/
theorem C3_counterexample :
    ScrollAction.can_merge_with aC3 bC3 = true ∧
    ¬ (|aC3.data.timestamp - bC3.data.timestamp| < 0.5) := by
  decide

/-- C3 (amended): for two SCROLL actions, `can_merge_with` holds iff the
timestamps differ by at most 0.5 seconds (the boundary is accepted) and
either side lacks coordinates or the squared euclidean distance between the
coordinates is below 2500 (i.e. distance below 50); when it holds and both
sides carry scroll deltas, `merge_with` returns a SCROLL action whose
deltas are the exact sums and whose timestamp and coordinates are those of
the strictly later action, the receiver's on a timestamp tie. -/
theorem C3_amended_scroll_merge (a b : Action) (now : ℚ)
    (_ha : a.data.action_type = ActionType.SCROLL)
    (hb : b.data.action_type = ActionType.SCROLL) :
    (ScrollAction.can_merge_with a b = true ↔
      (|a.data.timestamp - b.data.timestamp| ≤ 0.5 ∧
        (a.data.coordinates = none ∨ b.data.coordinates = none ∨
          ∃ p q, a.data.coordinates = some p ∧ b.data.coordinates = some q ∧
            (q.1 - p.1) ^ 2 + (q.2 - p.2) ^ 2 < 2500))) ∧
    (∀ dx1 dy1 dx2 dy2 : Int,
      ScrollAction.can_merge_with a b = true →
      a.data.scroll_info = some ⟨some dx1, some dy1⟩ →
      b.data.scroll_info = some ⟨some dx2, some dy2⟩ →
      ∃ r, ScrollAction.merge_with a b now = Except.ok r ∧
        r.data.action_type = ActionType.SCROLL ∧
        r.data.scroll_info = some ⟨some (dx1 + dx2), some (dy1 + dy2)⟩ ∧
        r.data.timestamp = max a.data.timestamp b.data.timestamp ∧
        r.data.coordinates = (if a.data.timestamp < b.data.timestamp
          then b.data.coordinates else a.data.coordinates)) := by
  constructor
  · unfold ScrollAction.can_merge_with
    rw [hb]
    simp only [ne_eq, not_true_eq_false, if_false]
    by_cases ht : |a.data.timestamp - b.data.timestamp| > 0.5
    · rw [if_pos ht]
      constructor
      · intro hf
        exact absurd hf (by decide)
      · rintro ⟨h1, _⟩
        exact absurd h1 (not_le.mpr ht)
    · rw [if_neg ht]
      have hle : |a.data.timestamp - b.data.timestamp| ≤ 0.5 := not_lt.mp ht
      cases hca : a.data.coordinates with
      | none => simp [hle]
      | some p =>
          cases hcb : b.data.coordinates with
          | none => simp [hle]
          | some q => simp [hle]
  · intro dx1 dy1 dx2 dy2 hcm hsa hsb
    unfold ScrollAction.merge_with
    have hg : ¬ ¬ ScrollAction.can_merge_with a b = true := by simp [hcm]
    rw [if_neg hg, hsa, hsb]
    refine ⟨_, rfl, rfl, rfl, ?_, ?_⟩
    · rw [mkAction_data]
      by_cases hts : a.data.timestamp < b.data.timestamp
      · have h1 : b.data.timestamp > a.data.timestamp := hts
        rw [if_pos h1]
        exact (max_eq_right hts.le).symm
      · have h1 : ¬ b.data.timestamp > a.data.timestamp := hts
        rw [if_neg h1]
        exact (max_eq_left (not_lt.mp hts)).symm
    · rfl

unseal Rat.add Rat.sub Rat.mul Rat.inv Rat.ofScientific in
/-- Witness for C3: the spec's worked example — deltas (1,2) at time 0.1 and
(100,100) merged with deltas (3,-1) at time 0.3 and (110,105), distance
about 11.2, yields deltas (4,1) at time 0.3 and (110,105). -/
theorem C3_witness :
    ∃ r, ScrollAction.merge_with aC3w bC3w 0 = Except.ok r ∧
      r.data.action_type = ActionType.SCROLL ∧
      r.data.scroll_info = some ⟨some (1 + 3), some (2 + -1)⟩ ∧
      r.data.timestamp = max aC3w.data.timestamp bC3w.data.timestamp ∧
      r.data.coordinates = (if aC3w.data.timestamp < bC3w.data.timestamp
        then bC3w.data.coordinates else aC3w.data.coordinates) :=
  (C3_amended_scroll_merge aC3w bC3w 0 rfl rfl).2 1 2 3 (-1) (by decide) rfl rfl

unseal Rat.add Rat.sub Rat.mul Rat.inv Rat.ofScientific in
/-- C4 (counterexample): two TYPE actions with equal timestamps — a
difference of 0, well within the 1-second window the claim quantifies
over — merge asymmetrically: each call order appends the receiver's text
last, so the two results differ. -/
theorem C4_counterexample :
    |aC4.data.timestamp - bC4.data.timestamp| < 1 ∧
    TypeAction.merge_with aC4 bC4 0 ≠ TypeAction.merge_with bC4 aC4 0 := by
  decide

/-- C4 (amended): for two TYPE actions whose timestamps differ by less than
one second (the metadata maps having unique keys, as Python dicts do): when
the timestamps are distinct, merging is symmetric in call order, and the
result concatenates the earlier text before the later text, carries the
later timestamp, takes the later action's element info when that is a
truthy (non-None, non-empty) dict and the earlier's otherwise — the Python
`or`, `pyOrDict` — and combines the metadata maps with the later action's
value winning on key collision; when the timestamps are equal, both call
orders take the else branch, so each order appends the receiver's text
after the argument's, keeps the shared timestamp, prefers the receiver's
truthy element info, and lets the receiver's metadata win on key
collision — which is why the call orders disagree there. -/
theorem C4_amended_type_merge (a b : Action) (now : ℚ)
    (ha : a.data.action_type = ActionType.TYPE)
    (hb : b.data.action_type = ActionType.TYPE)
    (hdt : |a.data.timestamp - b.data.timestamp| < 1)
    (hma : (a.data.metadata.map Prod.fst).Nodup)
    (hmb : (b.data.metadata.map Prod.fst).Nodup) :
    (a.data.timestamp < b.data.timestamp →
      TypeAction.merge_with a b now = TypeAction.merge_with b a now ∧
      ∃ r, TypeAction.merge_with a b now = Except.ok r ∧
        r.data.text = some (a.data.text.getD "" ++ b.data.text.getD "") ∧
        r.data.timestamp = b.data.timestamp ∧
        r.data.element_info = pyOrDict b.data.element_info a.data.element_info ∧
        (∀ k, dictGet r.data.metadata k =
          (dictGet b.data.metadata k).orElse (fun _ => dictGet a.data.metadata k))) ∧
    (a.data.timestamp = b.data.timestamp →
      ∃ r, TypeAction.merge_with a b now = Except.ok r ∧
        r.data.text = some (b.data.text.getD "" ++ a.data.text.getD "") ∧
        r.data.timestamp = a.data.timestamp ∧
        r.data.element_info = pyOrDict a.data.element_info b.data.element_info ∧
        (∀ k, dictGet r.data.metadata k =
          (dictGet a.data.metadata k).orElse (fun _ => dictGet b.data.metadata k))) := by
  have hcab : TypeAction.can_merge_with a b = true := by
    simp [TypeAction.can_merge_with, hb, hdt]
  have hga : ¬ ¬ TypeAction.can_merge_with a b = true := by simp [hcab]
  constructor
  · intro hlt
    have hcba : TypeAction.can_merge_with b a = true := by
      have hdt2 : |b.data.timestamp - a.data.timestamp| < 1 := by
        rw [abs_sub_comm]
        exact hdt
      simp [TypeAction.can_merge_with, ha, hdt2]
    have hgb : ¬ ¬ TypeAction.can_merge_with b a = true := by simp [hcba]
    have hgt : b.data.timestamp > a.data.timestamp := hlt
    have hngt : ¬ a.data.timestamp > b.data.timestamp := not_lt.mpr hlt.le
    constructor
    · unfold TypeAction.merge_with
      rw [if_neg hga, if_pos hgt, if_neg hgb, if_neg hngt]
    · unfold TypeAction.merge_with
      rw [if_neg hga, if_pos hgt]
      refine ⟨_, rfl, rfl, rfl, rfl, ?_⟩
      intro k
      rw [mkAction_data]
      exact dictGet_dictMerge a.data.metadata b.data.metadata k hma hmb
  · intro heq
    have hngt : ¬ b.data.timestamp > a.data.timestamp := by
      rw [heq]
      exact lt_irrefl _
    unfold TypeAction.merge_with
    rw [if_neg hga, if_neg hngt]
    refine ⟨_, rfl, rfl, rfl, rfl, ?_⟩
    intro k
    rw [mkAction_data]
    exact dictGet_dictMerge b.data.metadata a.data.metadata k hmb hma

unseal Rat.add Rat.sub Rat.mul Rat.inv Rat.ofScientific in
/-- Witness for C4, exercising both branches: "Hello" at time 1 merged with
" World" at time 1.5 (metadata keys colliding on "k") is symmetric in call
order; and on the equal-timestamp pair the receiver's text comes last and
the receiver's metadata wins. -/
theorem C4_witness :
    TypeAction.merge_with aC4w bC4w 0 = TypeAction.merge_with bC4w aC4w 0 ∧
    (∃ r, TypeAction.merge_with aC4 bC4 0 = Except.ok r ∧
      r.data.text = some (bC4.data.text.getD "" ++ aC4.data.text.getD "") ∧
      r.data.timestamp = aC4.data.timestamp ∧
      r.data.element_info = pyOrDict aC4.data.element_info bC4.data.element_info ∧
      (∀ k, dictGet r.data.metadata k =
        (dictGet aC4.data.metadata k).orElse (fun _ => dictGet bC4.data.metadata k))) :=
  ⟨((C4_amended_type_merge aC4w bC4w 0 rfl rfl (by decide) (by decide)
      (by decide)).1 (by decide)).1,
    (C4_amended_type_merge aC4 bC4 0 rfl rfl (by decide) (by decide)
      (by decide)).2 rfl⟩

end AgentNet
